import Mathlib

/-!
Shallow embedding of the CommentParser repository (src/main.py, src/vk_parser.py,
src/youtube_parser.py, src/reddit_parser.py) for checking the specification
claims.

Conventions of the embedding:
* A Python `datetime` value is modelled as an `Int` giving the instant it
  denotes on the naive-UTC timeline.  The code converts timezone-aware
  timestamps with `astimezone(utc).replace(tzinfo=None)`, which preserves the
  instant, so the conversion is the identity here and comparisons between the
  resulting naive datetimes are comparisons of these integers.
* The monitor object `CommentMonitor` is modelled by `MonitorState`, the
  attributes read or written by the dedup engine (`last_comments`, `first_run`,
  `parser_start_time`); each method becomes a function from this state.
* `self.last_comments` (a Python dict keyed by parser name) is modelled by an
  association list; dict lookup and dict assignment become `lookupComments`
  and `setComments`.
* Network I/O in the retry loops is modelled by a script `Nat → Event`
  assigning to each attempt index the outcome the network produces for it;
  `await asyncio.sleep(w)` becomes appending `w` to an explicit wait trace.
* A raised `YouTubeQuotaExceeded` exception becomes `Except.error msg`.
-/

/-- Comment class of vk_parser.py / youtube_parser.py / reddit_parser.py:
fields author, text, source, timestamp, source_url. -/
structure Comment where
  author : String
  text : String
  source : String
  timestamp : Int
  source_url : String
deriving DecidableEq, Repr

/-- Dedup key built in CommentMonitor.get_new_comments (main.py lines 577 and
585): the Python f-string interpolating author, text and source_url separated
by single underscores. -/
def fingerprint (c : Comment) : String :=
  c.author ++ "_" ++ c.text ++ "_" ++ c.source_url

/-- The attributes of CommentMonitor that the dedup engine reads or writes:
`last_comments` (dict parser name -> stored batch), `first_run`, and
`parser_start_time` (the naive-UTC instant captured in `__init__` and never
overwritten afterwards). -/
structure MonitorState where
  last_comments : List (String × List Comment)
  first_run : Bool
  parser_start_time : Int
deriving DecidableEq, Repr

/-- Dict lookup `self.last_comments[parser_name]` / the membership test
`parser_name in self.last_comments`. -/
def lookupComments (name : String) : List (String × List Comment) → Option (List Comment)
  | [] => none
  | (k, v) :: rest => if k = name then some v else lookupComments name rest

/-- Dict assignment `self.last_comments[parser_name] = v`. -/
def setComments (name : String) (v : List Comment) :
    List (String × List Comment) → List (String × List Comment)
  | [] => [(name, v)]
  | (k, w) :: rest =>
      if k = name then (name, v) :: rest else (k, w) :: setComments name v rest

/-- CommentMonitor.save_last_comments (main.py lines 521-525):
`self.last_comments[parser_name] = comments[:100]`. -/
def save_last_comments (st : MonitorState) (parser_name : String)
    (comments : List Comment) : MonitorState :=
  { st with last_comments := setComments parser_name (comments.take 100) st.last_comments }

/-- CommentMonitor.get_new_comments (main.py lines 527-593).  First the batch
is filtered to comments with `comment_time >= self.parser_start_time` (the
timestamp already normalised to naive UTC, see the module conventions; the
comparison of two integers cannot raise, so the except-branch that would skip
a comment on a comparison error is unreachable here).  Then: on `first_run`
return []; if the parser has no entry in `last_comments` return []; otherwise
build the set of fingerprints of the stored batch and keep the filtered
comments whose fingerprint is not in it, preserving their order. -/
def get_new_comments (st : MonitorState) (parser_name : String)
    (current_comments : List Comment) : List Comment :=
  let filtered_comments :=
    current_comments.filter fun c => decide (st.parser_start_time ≤ c.timestamp)
  if st.first_run then []
  else
    match lookupComments parser_name st.last_comments with
    | none => []
    | some last =>
        let known_comments := last.map fingerprint
        filtered_comments.filter fun c => !(known_comments.contains (fingerprint c))

/-- Outcome of `parser.get_comments(...)` as observed by
CommentMonitor._check_single_parser: a normal batch, a raised
YouTubeQuotaExceeded, or any other raised exception. -/
inductive FetchResult where
  | ok (comments : List Comment)
  | quotaExceeded (msg : String)
  | failed (msg : String)

/-- Observable effects of one CommentMonitor._check_single_parser call
(main.py lines 622-697): the comments forwarded to the Telegram sender, the
(message, parser name) alerts routed to the error topic, `result['error']`,
the updated monitor state, the updated error counters, and the parsers list
(which the method never modifies). -/
structure CheckOutput where
  sent : List Comment
  error_channel : List (String × String)
  result_error : Option String
  state : MonitorState
  total_errors : Nat
  parser_errors : Nat
  parsers : List String
deriving Repr

/-- CommentMonitor._check_single_parser (main.py lines 622-697), given the
outcome of the parser's fetch.  On a non-empty batch: run get_new_comments,
forward `new_comments[:10]`, then `save_last_comments(parser_name, comments)`;
on an empty batch: `save_last_comments(parser_name, [])`.  On
YouTubeQuotaExceeded: increment both error counters, route the quota message
to the error topic, set `result['error']`, and return normally.  On any other
exception: same with the wrapped message.  `self.parsers` is untouched on
every path. -/
def check_single_source (st : MonitorState) (parsers : List String)
    (total_errors parser_errors : Nat) (parser_name : String)
    (res : FetchResult) : CheckOutput :=
  match res with
  | .ok comments =>
      if comments.isEmpty then
        { sent := [], error_channel := [], result_error := none
          state := save_last_comments st parser_name []
          total_errors := total_errors, parser_errors := parser_errors
          parsers := parsers }
      else
        let new_comments := get_new_comments st parser_name comments
        { sent := new_comments.take 10, error_channel := [], result_error := none
          state := save_last_comments st parser_name comments
          total_errors := total_errors, parser_errors := parser_errors
          parsers := parsers }
  | .quotaExceeded msg =>
      { sent := [], error_channel := [(msg, parser_name)], result_error := some msg
        state := st
        total_errors := total_errors + 1, parser_errors := parser_errors + 1
        parsers := parsers }
  | .failed msg =>
      { sent := [],
        error_channel := [("Ошибка при проверке " ++ parser_name ++ ": " ++ msg, parser_name)]
        result_error := some msg
        state := st
        total_errors := total_errors + 1, parser_errors := parser_errors + 1
        parsers := parsers }

/-- The dedup-relevant slice of a successful check: the forwarded comments and
the updated monitor state. -/
def check_ok (st : MonitorState) (parser_name : String) (comments : List Comment) :
    List Comment × MonitorState :=
  let o := check_single_source st [] 0 0 parser_name (.ok comments)
  (o.sent, o.state)

/-- One iteration of CommentMonitor.run for a single parser (main.py lines
783-789): check the parser, then clear `first_run` (`if self.first_run:
self.first_run = False`, equivalent to unconditionally setting it to false). -/
def run_cycle (st : MonitorState) (parser_name : String) (batch : List Comment) :
    List Comment × MonitorState :=
  let p := check_ok st parser_name batch
  (p.1, { p.2 with first_run := false })

/-- Several consecutive cycles for one parser, returning the list of
per-cycle forwarded batches and the final state. -/
def run_cycles : MonitorState → String → List (List Comment) →
    List (List Comment) × MonitorState
  | st, _, [] => ([], st)
  | st, name, b :: bs =>
      let p := run_cycle st name b
      let q := run_cycles p.2 name bs
      (p.1 :: q.1, q.2)

/-- The status list `[429, 500, 502, 503, 504]` of temporary errors retried
by the BaseParser retry loops. -/
def retryableStatus (n : Nat) : Bool :=
  n == 429 || n == 500 || n == 502 || n == 503 || n == 504

/-- Default `max_retries` of BaseParser.make_request_with_retry in
vk_parser.py (line 76). -/
def vk_default_max_retries : Nat := 3

/-- Default `max_retries` of BaseParser.make_request_with_retry in
youtube_parser.py (line 74). -/
def yt_default_max_retries : Nat := 3

/-- Default `max_retries` of RedditParser.make_api_request in
reddit_parser.py (line 198). -/
def reddit_default_max_retries : Nat := 3

/-- What the network produces for one attempt of the vk_parser.py
BaseParser.make_request_with_retry loop: a 200 with parseable JSON carrying
payload `d`, a 200 whose body fails to parse, a non-200 status, a timeout, or
any other exception. -/
inductive VKEvent (α : Type) where
  | ok (d : α)
  | badJson
  | status (n : Nat)
  | timeout
  | exn
deriving Repr

/-- BaseParser.make_request_with_retry of vk_parser.py (lines 72-126),
started at attempt index `attempt` with `fuel` loop iterations remaining
(so a call is started with `fuel = max_retries`).  Returns the value of the
Python return statement reached together with the trace of
`asyncio.sleep` durations.  `attempt < max_retries - 1` is `fuel ≠ 1` here. -/
def vk_request_loop {α : Type} (script : Nat → VKEvent α) :
    Nat → Nat → Option α × List Nat
  | _, 0 => (none, [])
  | attempt, fuel + 1 =>
      match script attempt with
      | .ok d => (some d, [])
      | .badJson =>
          if fuel = 0 then (none, [])
          else
            let r := vk_request_loop script (attempt + 1) fuel
            (r.1, 2 ^ attempt :: r.2)
      | .status n =>
          if retryableStatus n then
            if fuel = 0 then (none, [])
            else
              let r := vk_request_loop script (attempt + 1) fuel
              (r.1, 2 ^ attempt :: r.2)
          else (none, [])
      | .timeout =>
          if fuel = 0 then (none, [])
          else
            let r := vk_request_loop script (attempt + 1) fuel
            (r.1, 2 ^ attempt :: r.2)
      | .exn =>
          if fuel = 0 then (none, [])
          else
            let r := vk_request_loop script (attempt + 1) fuel
            (r.1, 2 ^ attempt :: r.2)

/-- The message of the YouTubeQuotaExceeded exception raised in
youtube_parser.py lines 100-106. -/
def quota_exceeded_msg : String :=
  "⚠️ YouTube API: превышена дневная квота (10,000 единиц). " ++
  "Квота обновится через 24 часа. YouTube парсер временно отключен."

/-- What the network produces for one attempt of the youtube_parser.py
BaseParser.make_request_with_retry loop.  A 403 response carries the error
reason extracted from its JSON body (`none` when the body fails to parse). -/
inductive YTEvent (α : Type) where
  | ok (d : α)
  | badJson
  | forbidden (reason : Option String)
  | status (n : Nat)
  | timeout
  | exn
deriving Repr

/-- BaseParser.make_request_with_retry of youtube_parser.py (lines 70-149).
Like the VK version, except the 403 branch: when the extracted error reason
is the string quotaExceeded, YouTubeQuotaExceeded is raised (modelled as
`Except.error quota_exceeded_msg`) without any retry; every other 403 returns
None. -/
def yt_request_loop {α : Type} (script : Nat → YTEvent α) :
    Nat → Nat → Except String (Option α) × List Nat
  | _, 0 => (.ok none, [])
  | attempt, fuel + 1 =>
      match script attempt with
      | .ok d => (.ok (some d), [])
      | .badJson =>
          if fuel = 0 then (.ok none, [])
          else
            let r := yt_request_loop script (attempt + 1) fuel
            (r.1, 2 ^ attempt :: r.2)
      | .forbidden reason =>
          if reason = some "quotaExceeded" then (.error quota_exceeded_msg, [])
          else (.ok none, [])
      | .status n =>
          if retryableStatus n then
            if fuel = 0 then (.ok none, [])
            else
              let r := yt_request_loop script (attempt + 1) fuel
              (r.1, 2 ^ attempt :: r.2)
          else (.ok none, [])
      | .timeout =>
          if fuel = 0 then (.ok none, [])
          else
            let r := yt_request_loop script (attempt + 1) fuel
            (r.1, 2 ^ attempt :: r.2)
      | .exn =>
          if fuel = 0 then (.ok none, [])
          else
            let r := yt_request_loop script (attempt + 1) fuel
            (r.1, 2 ^ attempt :: r.2)

/-- What the network produces for one attempt of
RedditParser.make_api_request (reddit_parser.py lines 198-267).  A 401
carries the outcome of the in-place token refresh and retried request
(`some d` when the retried request returned 200 with payload `d`, `none`
otherwise, in which case the iteration falls through without sleeping). -/
inductive RedditEvent (α : Type) where
  | ok (d : α)
  | unauthorized (recovered : Option α)
  | rateLimited
  | status (n : Nat)
  | timeout
  | exn
deriving Repr

/-- The retry loop of RedditParser.make_api_request (reddit_parser.py lines
211-267), assuming the access token was obtained.  429 sleeps
`(attempt + 1) * 5`, a timeout sleeps `(attempt + 1) * 3`, a generic
exception sleeps `(attempt + 1) * 2`; other non-200 statuses return None
immediately. -/
def reddit_request_loop {α : Type} (script : Nat → RedditEvent α) :
    Nat → Nat → Option α × List Nat
  | _, 0 => (none, [])
  | attempt, fuel + 1 =>
      match script attempt with
      | .ok d => (some d, [])
      | .unauthorized (some d) => (some d, [])
      | .unauthorized none => reddit_request_loop script (attempt + 1) fuel
      | .rateLimited =>
          if fuel = 0 then (none, [])
          else
            let r := reddit_request_loop script (attempt + 1) fuel
            (r.1, (attempt + 1) * 5 :: r.2)
      | .status _ => (none, [])
      | .timeout =>
          if fuel = 0 then (none, [])
          else
            let r := reddit_request_loop script (attempt + 1) fuel
            (r.1, (attempt + 1) * 3 :: r.2)
      | .exn =>
          if fuel = 0 then (none, [])
          else
            let r := reddit_request_loop script (attempt + 1) fuel
            (r.1, (attempt + 1) * 2 :: r.2)

/-- Outcome of one `get_video_comments` task inside
YouTubeParser.get_comments as seen after `asyncio.gather(...,
return_exceptions=True)`: a comment list, a YouTubeQuotaExceeded instance, or
any other exception. -/
inductive VideoFetch where
  | ok (cs : List Comment)
  | quota
  | failed
deriving DecidableEq, Repr

/-- The result-processing loop of YouTubeParser.get_comments
(youtube_parser.py lines 364-372): a quota result is re-raised, another
exception is logged and skipped, comment lists are concatenated in order. -/
def yt_collect : List VideoFetch → Except String (List Comment)
  | [] => .ok []
  | .quota :: _ => .error quota_exceeded_msg
  | .failed :: rest => yt_collect rest
  | .ok cs :: rest =>
      match yt_collect rest with
      | .error m => .error m
      | .ok acc => .ok (cs ++ acc)

/-- YouTubeParser.get_comments (youtube_parser.py lines 337-384), given the
outcome of get_video_ids (which propagates YouTubeQuotaExceeded, modelled as
`Except.error`) and the per-video fetch outcomes.  An empty video list
returns []; a quota error anywhere propagates un-swallowed (the outer
`except YouTubeQuotaExceeded: raise`); otherwise the collected comments are
sorted by timestamp descending (Python stable sort) and truncated to
`limit`. -/
def yt_get_comments (videoIdsOutcome : Except String (List String))
    (results : List VideoFetch) (limit : Nat) : Except String (List Comment) :=
  match videoIdsOutcome with
  | .error m => .error m
  | .ok ids =>
      if ids.isEmpty then .ok []
      else
        match yt_collect results with
        | .error m => .error m
        | .ok all =>
            .ok (((all.mergeSort fun a b => decide (b.timestamp ≤ a.timestamp)).take limit))

/-- CommentMonitor.get_new_comments viewed as a state transformer on the
monitor attributes it can reach.  The method body only builds the local
lists filtered_comments, known_comments and new_comments; it assigns no
attribute of self, so the state passes through unchanged. -/
def get_new_comments_st (st : MonitorState) (parser_name : String)
    (current_comments : List Comment) : List Comment × MonitorState :=
  (get_new_comments st parser_name current_comments, st)

/-- Concrete comment of the specification example scenario:
author A, text hi, posted at 2024-01-01T00:00:05Z (epoch seconds
1704067205). -/
def sample_comment : Comment := ⟨"A", "hi", "SourceX", 1704067205, "url1"⟩

/-- Monitor state of a cold start for the example scenario: no persisted
comments (so `first_run` is true) and `parser_start_time` at
2024-01-01T00:00:00Z (epoch seconds 1704067200). -/
def cold_state : MonitorState := ⟨[], true, 1704067200⟩

/-- Monitor state of a process that loaded a snapshot holding an empty
stored batch for source P (a previous run saved an empty fetch), so
`first_run` is false. -/
def warm_state : MonitorState := ⟨[("P", [])], false, 0⟩

/-- A comment written after the epoch of `warm_state`, used to exhibit
double forwarding. -/
def dup_comment : Comment := ⟨"A", "hi", "P", 5, "u1"⟩

/-- First member of a colliding fingerprint pair: author a, text b_c. -/
def colliding_a : Comment := ⟨"a", "b_c", "S", 5, "u"⟩

/-- Second member of a colliding fingerprint pair: author a_b, text c. -/
def colliding_b : Comment := ⟨"a_b", "c", "S", 5, "u"⟩

/-- Monitor state that already knows `colliding_a` for source S. -/
def collision_state : MonitorState := ⟨[("S", [colliding_a])], false, 0⟩

/-- Monitor state with an empty stored batch for source S. -/
def collision_empty_state : MonitorState := ⟨[("S", [])], false, 0⟩

/-- Family of pairwise distinct comments (distinct author, hence distinct
fingerprint), all written after epoch 0. -/
def indexed_comment (i : Nat) : Comment := ⟨"a" ++ toString i, "t", "P", 5, "u"⟩

/-- A fetched batch of 101 distinct comments. -/
def big_batch : List Comment := (List.range 101).map indexed_comment

/-- Monitor state whose stored batch for P holds the first 90 of the
indexed comments, so `big_batch` yields 11 new comments. -/
def big_state : MonitorState := ⟨[("P", (List.range 90).map indexed_comment)], false, 0⟩

/-! Helper lemmas shared by the claim theorems. -/

/-- Two strings with the same character data are equal. -/
theorem string_data_inj (a b : String) (h : a.data = b.data) : a = b := by
  cases a; cases b; exact congrArg String.mk h

/-- Looking up a key just assigned by `setComments` returns the assigned
value. -/
theorem lookup_set_same (name : String) (v : List Comment)
    (m : List (String × List Comment)) :
    lookupComments name (setComments name v m) = some v := by
  induction m with
  | nil => simp [setComments, lookupComments]
  | cons kv rest ih =>
      obtain ⟨k, w⟩ := kv
      by_cases h : k = name
      · simp [setComments, lookupComments, h]
      · simp [setComments, lookupComments, h, ih]

/-- A comment whose fingerprint occurs among the stored batch's fingerprints
is never returned by get_new_comments. -/
theorem fingerprint_known_excluded (st : MonitorState) (parser_name : String)
    (cs : List Comment) (c : Comment) (last : List Comment)
    (hlk : lookupComments parser_name st.last_comments = some last)
    (hfp : fingerprint c ∈ last.map fingerprint) :
    c ∉ get_new_comments st parser_name cs := by
  intro hmem
  unfold get_new_comments at hmem
  by_cases hf : st.first_run = true
  · simp [hf] at hmem
  · simp only [hf, if_false, hlk] at hmem
    have h2 := (List.mem_filter.mp hmem).2
    have : fingerprint c ∉ last.map fingerprint := by simpa using h2
    exact this hfp

/-- C1: every candidate comment whose (naive-UTC normalised) timestamp is
strictly before parser_start_time is excluded from the list returned by
CommentMonitor.get_new_comments, whatever the stored fingerprints are. -/
theorem C1_pre_epoch_never_emitted (st : MonitorState) (parser_name : String)
    (current_comments : List Comment) (c : Comment)
    (h : c.timestamp < st.parser_start_time) :
    c ∉ get_new_comments st parser_name current_comments := by
  intro hmem
  unfold get_new_comments at hmem
  by_cases hf : st.first_run = true
  · simp [hf] at hmem
  · rcases hlk : lookupComments parser_name st.last_comments with _ | last
    · simp [hf, hlk] at hmem
    · simp only [hf, if_false, hlk] at hmem
      have h1 := (List.mem_filter.mp hmem).1
      have h2 := (List.mem_filter.mp h1).2
      have h3 := of_decide_eq_true h2
      omega

/-- Witness for C1: a comment written 5 seconds before the epoch of
`warm_state` is not returned even though its fingerprint is unknown. -/
theorem C1_witness :
    (⟨"Old", "x", "P", -5, "u"⟩ : Comment) ∉
      get_new_comments warm_state "P" [⟨"Old", "x", "P", -5, "u"⟩] :=
  C1_pre_epoch_never_emitted warm_state "P" [⟨"Old", "x", "P", -5, "u"⟩]
    ⟨"Old", "x", "P", -5, "u"⟩ (by decide)

/-- C2: on `first_run`, or when the source has no entry in `last_comments`,
CommentMonitor.get_new_comments returns the empty list for every candidate
batch. -/
theorem C2_cold_start_returns_empty (st : MonitorState) (parser_name : String)
    (current_comments : List Comment)
    (h : st.first_run = true ∨ lookupComments parser_name st.last_comments = none) :
    get_new_comments st parser_name current_comments = [] := by
  unfold get_new_comments
  rcases h with h | h
  · simp [h]
  · by_cases hf : st.first_run = true <;> simp [hf, h]

/-- Witness for C2: on the cold start state every batch, here one whose only
comment postdates the epoch, yields the empty list. -/
theorem C2_witness :
    get_new_comments cold_state "SourceX" [sample_comment] = [] :=
  C2_cold_start_returns_empty cold_state "SourceX" [sample_comment]
    (Or.inl (by decide))

/-- Counterexample to C3: starting from a loaded snapshot whose stored batch
for P is empty, the batches [dup], [], [dup] forward the same comment twice,
because the empty middle fetch wholesale-replaces the stored state and wipes
the fingerprint. -/
theorem C3_counterexample :
    1 < ((run_cycles warm_state "P" [[dup_comment], [], [dup_comment]]).1.flatten.count
      dup_comment) := by decide

/-- C3 amended: a comment forwarded in a cycle is excluded by the next
cycle's filter provided it lies within the first 100 items of that cycle's
fetched batch (the part of the batch that the wholesale state replacement
retains). -/
theorem C3_amended_stored_never_reemitted (st : MonitorState) (parser_name : String)
    (batch : List Comment) (c : Comment) (next_batch : List Comment)
    (hsent : c ∈ (run_cycle st parser_name batch).1)
    (hstored : c ∈ batch.take 100) :
    c ∉ get_new_comments (run_cycle st parser_name batch).2 parser_name next_batch := by
  have hfp : fingerprint c ∈ (batch.take 100).map fingerprint :=
    List.mem_map_of_mem _ hstored
  have hlk : lookupComments parser_name (run_cycle st parser_name batch).2.last_comments
      = some (batch.take 100) := by
    rcases batch with _ | ⟨b, bs⟩
    · simp [run_cycle, check_ok, check_single_source, save_last_comments, lookup_set_same]
    · simp [run_cycle, check_ok, check_single_source, save_last_comments, lookup_set_same]
  exact fingerprint_known_excluded _ _ _ _ _ hlk hfp

/-- Witness for C3 amended: dup_comment is forwarded from `warm_state` and,
being within the first 100 stored items, is excluded when the identical
batch is presented to the next cycle. -/
theorem C3_witness :
    dup_comment ∉
      get_new_comments (run_cycle warm_state "P" [dup_comment]).2 "P" [dup_comment] :=
  C3_amended_stored_never_reemitted warm_state "P" [dup_comment] dup_comment
    [dup_comment] (by decide) (by decide)

/-- Counterexample to C5: running the spec's example scenario (cold start,
epoch 2024-01-01T00:00:00Z, the same one-element batch each cycle) does not
produce the outputs [], [item], [] the claim states: the first cycle's
snapshot stores the full fetched batch, so the second cycle already knows
the item. -/
theorem C5_counterexample :
    (run_cycles cold_state "SourceX"
        [[sample_comment], [sample_comment], [sample_comment]]).1
      ≠ [[], [sample_comment], []] := by decide

/-- C5 amended: in the example scenario the filter returns the empty list on
all three cycles — the first because of first_run, the second and third
because the item is known from the first cycle's snapshot, which stores the
full fetched batch rather than the (empty) emitted list. -/
theorem C5_amended_scenario_outputs :
    (run_cycles cold_state "SourceX"
        [[sample_comment], [sample_comment], [sample_comment]]).1
      = [[], [], []] := by decide

/-- C10: the underscore-joined fingerprint conflates distinct
(author, text, source_url) triples: colliding_a and colliding_b differ in
author and text yet share one fingerprint, and a state that knows
colliding_a suppresses the genuinely new colliding_b, which an empty stored
batch would have let through. -/
theorem C10_separator_collision :
    fingerprint colliding_a = fingerprint colliding_b ∧
    (colliding_a.author, colliding_a.text, colliding_a.source_url)
      ≠ (colliding_b.author, colliding_b.text, colliding_b.source_url) ∧
    get_new_comments collision_state "S" [colliding_b] = [] ∧
    get_new_comments collision_empty_state "S" [colliding_b] = [colliding_b] := by
  refine ⟨by decide, by decide, by decide, by decide⟩

/-- C6: the fingerprint is a function of exactly author, text and
source_url — comments identical in those three fields share it whatever
their timestamps, and changing any single one of the three fields while
keeping the other two fixed changes it.  Being a Lean function of the
comment alone, it involves no process-local state. -/
theorem C6_fingerprint_function_of_three_fields :
    (∀ c1 c2 : Comment, c1.author = c2.author → c1.text = c2.text →
        c1.source_url = c2.source_url → fingerprint c1 = fingerprint c2) ∧
    (∀ c1 c2 : Comment, c1.text = c2.text → c1.source_url = c2.source_url →
        c1.author ≠ c2.author → fingerprint c1 ≠ fingerprint c2) ∧
    (∀ c1 c2 : Comment, c1.author = c2.author → c1.source_url = c2.source_url →
        c1.text ≠ c2.text → fingerprint c1 ≠ fingerprint c2) ∧
    (∀ c1 c2 : Comment, c1.author = c2.author → c1.text = c2.text →
        c1.source_url ≠ c2.source_url → fingerprint c1 ≠ fingerprint c2) := by
  refine ⟨?_, ?_, ?_, ?_⟩
  · intro c1 c2 ha ht hu
    simp [fingerprint, ha, ht, hu]
  · intro c1 c2 ht hu hne h
    have hd := congrArg String.data h
    simp only [fingerprint, String.data_append, List.append_assoc, ht, hu] at hd
    exact hne (string_data_inj _ _ (List.append_cancel_right hd))
  · intro c1 c2 ha hu hne h
    have hd := congrArg String.data h
    simp only [fingerprint, String.data_append, List.append_assoc, ha, hu] at hd
    have h2 := List.append_cancel_left hd
    have h3 := List.append_cancel_left h2
    exact hne (string_data_inj _ _ (List.append_cancel_right h3))
  · intro c1 c2 ha ht hne h
    have hd := congrArg String.data h
    simp only [fingerprint, String.data_append, List.append_assoc, ha, ht] at hd
    have h2 := List.append_cancel_left hd
    have h3 := List.append_cancel_left h2
    have h4 := List.append_cancel_left h3
    exact hne (string_data_inj _ _ (List.append_cancel_left h4))

/-- Witness for C6 at concrete comments: a timestamp change keeps the
fingerprint; changing only author, only text or only source_url each changes
it. -/
theorem C6_witness :
    fingerprint ⟨"A", "x", "S", 1, "u"⟩ = fingerprint ⟨"A", "x", "S", 2, "u"⟩ ∧
    fingerprint ⟨"A", "x", "S", 1, "u"⟩ ≠ fingerprint ⟨"B", "x", "S", 1, "u"⟩ ∧
    fingerprint ⟨"A", "x", "S", 1, "u"⟩ ≠ fingerprint ⟨"A", "y", "S", 1, "u"⟩ ∧
    fingerprint ⟨"A", "x", "S", 1, "u"⟩ ≠ fingerprint ⟨"A", "x", "S", 1, "v"⟩ :=
  ⟨C6_fingerprint_function_of_three_fields.1 _ _ rfl rfl rfl,
   C6_fingerprint_function_of_three_fields.2.1 _ _ rfl rfl (by decide),
   C6_fingerprint_function_of_three_fields.2.2.1 _ _ rfl rfl (by decide),
   C6_fingerprint_function_of_three_fields.2.2.2 _ _ rfl rfl (by decide)⟩

/-- C7: get_new_comments is side-effect free on the dedup state and
idempotent: the state transformer returns the monitor state unchanged, and a
second call with the same batch on the state returned by the first yields
the same output list. -/
theorem C7_filter_pure_and_idempotent (st : MonitorState) (parser_name : String)
    (current_comments : List Comment) :
    (get_new_comments_st st parser_name current_comments).2 = st ∧
    (get_new_comments_st (get_new_comments_st st parser_name current_comments).2
        parser_name current_comments).1
      = (get_new_comments_st st parser_name current_comments).1 :=
  ⟨rfl, rfl⟩

/-- Counterexample to the last clause of C4: from `big_state` the 101-item
`big_batch` yields 11 (> 10) new comments, among them `indexed_comment 100`,
yet after the cycle that comment is not in the fingerprint universe — the
next cycle emits it again — because the stored state keeps only the first
100 items of the batch. -/
theorem C4_counterexample :
    10 < (get_new_comments big_state "P" big_batch).length ∧
    indexed_comment 100 ∈ get_new_comments big_state "P" big_batch ∧
    get_new_comments (run_cycle big_state "P" big_batch).2 "P" [indexed_comment 100]
      = [indexed_comment 100] :=
  ⟨by decide, by decide, by decide⟩

/-- C4 amended: with more than 10 new comments, exactly the first 10
(newest-first order preserved) are forwarded, the stored state is replaced
with the fetched batch capped to the most recent 100 items, and every new
comment that lies within those first 100 items enters the fingerprint
universe, i.e. is excluded by the next cycle's filter. -/
theorem C4_amended_cap_and_bounded_store (st : MonitorState) (parser_name : String)
    (batch next_batch : List Comment) (c : Comment)
    (hne : batch ≠ [])
    (hN : 10 < (get_new_comments st parser_name batch).length) :
    (run_cycle st parser_name batch).1
      = (get_new_comments st parser_name batch).take 10 ∧
    (run_cycle st parser_name batch).1.length = 10 ∧
    lookupComments parser_name (run_cycle st parser_name batch).2.last_comments
      = some (batch.take 100) ∧
    (c ∈ get_new_comments st parser_name batch → c ∈ batch.take 100 →
      c ∉ get_new_comments (run_cycle st parser_name batch).2 parser_name next_batch) := by
  have hb : batch.isEmpty = false := by
    cases batch with
    | nil => exact absurd rfl hne
    | cons b bs => rfl
  have h1 : (run_cycle st parser_name batch).1
      = (get_new_comments st parser_name batch).take 10 := by
    simp [run_cycle, check_ok, check_single_source, hb]
  have h3 : lookupComments parser_name (run_cycle st parser_name batch).2.last_comments
      = some (batch.take 100) := by
    simp [run_cycle, check_ok, check_single_source, hb, save_last_comments, lookup_set_same]
  refine ⟨h1, ?_, h3, ?_⟩
  · rw [h1, List.length_take]
    omega
  · intro hcnew hc100
    exact fingerprint_known_excluded _ _ _ _ _ h3 (List.mem_map_of_mem _ hc100)

/-- Witness for C4 amended: on the concrete burst exactly 10 comments are
forwarded, and a new comment within the first 100 stored items
(`indexed_comment 95`) is not re-emitted next cycle. -/
theorem C4_witness :
    (run_cycle big_state "P" big_batch).1.length = 10 ∧
    indexed_comment 95 ∉
      get_new_comments (run_cycle big_state "P" big_batch).2 "P" [indexed_comment 95] :=
  ⟨(C4_amended_cap_and_bounded_store big_state "P" big_batch [indexed_comment 95]
      (indexed_comment 95) (by decide) (by decide)).2.1,
   (C4_amended_cap_and_bounded_store big_state "P" big_batch [indexed_comment 95]
      (indexed_comment 95) (by decide) (by decide)).2.2.2 (by decide) (by decide)⟩

/-- A quota outcome occurring anywhere in the gathered per-video results
makes the result-processing loop of YouTubeParser.get_comments re-raise it. -/
theorem yt_collect_quota_of_mem (results : List VideoFetch)
    (h : VideoFetch.quota ∈ results) :
    yt_collect results = .error quota_exceeded_msg := by
  induction results with
  | nil => cases h
  | cons r rest ih =>
      cases r with
      | ok cs =>
          have hr : VideoFetch.quota ∈ rest := by
            rcases List.mem_cons.mp h with h1 | h1
            · exact absurd h1 (by simp)
            · exact h1
          simp [yt_collect, ih hr]
      | quota => simp [yt_collect]
      | failed =>
          have hr : VideoFetch.quota ∈ rest := by
            rcases List.mem_cons.mp h with h1 | h1
            · exact absurd h1 (by simp)
            · exact h1
          simp [yt_collect, ih hr]

/-- C8: a 403 response classified quotaExceeded makes the YouTube retry loop
raise the distinguished signal at once (no retry, no normal None result);
the signal propagates un-swallowed through YouTubeParser.get_comments both
from get_video_ids and from any gathered per-video fetch; and the
orchestrator's quota handler routes the distinguished alert to the error
channel, increments both error counters, records the error on the result,
leaves the monitor state untouched and keeps the parsers list — hence the
source — enabled, returning normally. -/
theorem C8_quota_signal_raised_propagated_handled :
    (∀ (α : Type) (script : Nat → YTEvent α) (attempt fuel : Nat),
        script attempt = YTEvent.forbidden (some "quotaExceeded") →
        yt_request_loop script attempt (fuel + 1)
          = (Except.error quota_exceeded_msg, [])) ∧
    (∀ (results : List VideoFetch) (limit : Nat),
        yt_get_comments (Except.error quota_exceeded_msg) results limit
          = Except.error quota_exceeded_msg) ∧
    (∀ (ids : List String) (results : List VideoFetch) (limit : Nat),
        ids ≠ [] → VideoFetch.quota ∈ results →
        yt_get_comments (Except.ok ids) results limit
          = Except.error quota_exceeded_msg) ∧
    (∀ (st : MonitorState) (parsers : List String) (te pe : Nat)
        (parser_name msg : String),
        (check_single_source st parsers te pe parser_name (.quotaExceeded msg)).error_channel
            = [(msg, parser_name)] ∧
        (check_single_source st parsers te pe parser_name (.quotaExceeded msg)).total_errors
            = te + 1 ∧
        (check_single_source st parsers te pe parser_name (.quotaExceeded msg)).parser_errors
            = pe + 1 ∧
        (check_single_source st parsers te pe parser_name (.quotaExceeded msg)).result_error
            = some msg ∧
        (check_single_source st parsers te pe parser_name (.quotaExceeded msg)).state = st ∧
        (check_single_source st parsers te pe parser_name (.quotaExceeded msg)).parsers
            = parsers) := by
  refine ⟨?_, ?_, ?_, ?_⟩
  · intro α script attempt fuel h
    simp [yt_request_loop, h]
  · intro results limit
    rfl
  · intro ids results limit hne hq
    have hb : ids.isEmpty = false := by
      cases ids with
      | nil => exact absurd rfl hne
      | cons a as => rfl
    simp [yt_get_comments, hb, yt_collect_quota_of_mem results hq]
  · intro st parsers te pe parser_name msg
    exact ⟨rfl, rfl, rfl, rfl, rfl, rfl⟩

/-- Witness for C8 at concrete inputs: the quota 403 on the first attempt of
a default-3-retries request raises at once, a quota outcome among two
video results makes get_comments raise, and the orchestrator handler counts
the error. -/
theorem C8_witness :
    yt_request_loop (fun _ => (YTEvent.forbidden (some "quotaExceeded") : YTEvent Nat)) 0
        yt_default_max_retries = (Except.error quota_exceeded_msg, []) ∧
    yt_get_comments (Except.ok ["v1"]) [VideoFetch.ok [], VideoFetch.quota] 50
      = Except.error quota_exceeded_msg ∧
    (check_single_source warm_state ["YouTube"] 0 0 "YouTube"
        (.quotaExceeded quota_exceeded_msg)).total_errors = 1 ∧
    (check_single_source warm_state ["YouTube"] 0 0 "YouTube"
        (.quotaExceeded quota_exceeded_msg)).parsers = ["YouTube"] :=
  ⟨C8_quota_signal_raised_propagated_handled.1 Nat
      (fun _ => YTEvent.forbidden (some "quotaExceeded")) 0 2 rfl,
   C8_quota_signal_raised_propagated_handled.2.2.1 ["v1"]
      [VideoFetch.ok [], VideoFetch.quota] 50 (by decide) (by decide),
   (C8_quota_signal_raised_propagated_handled.2.2.2 warm_state ["YouTube"] 0 0
      "YouTube" quota_exceeded_msg).2.1,
   (C8_quota_signal_raised_propagated_handled.2.2.2 warm_state ["YouTube"] 0 0
      "YouTube" quota_exceeded_msg).2.2.2.2.2⟩

/-- Counterexample to C9: in the shared BaseParser retry loop (the VK and
YouTube request path) a 429 rate-limit response waits the exponential
2 ^ attempt schedule, not 5 * (attempt + 1); and in the Reddit request path a
timeout waits 3 * (attempt + 1), not 2 ^ attempt.  With the default 3
attempts the respective wait traces are [1, 2] and [3, 6]. -/
theorem C9_counterexample :
    (vk_request_loop (fun _ => (VKEvent.status 429 : VKEvent Nat)) 0
        vk_default_max_retries).2 ≠ [5 * (0 + 1), 5 * (1 + 1)] ∧
    (reddit_request_loop (fun _ => (RedditEvent.timeout : RedditEvent Nat)) 0
        reddit_default_max_retries).2 ≠ [2 ^ 0, 2 ^ 1] :=
  ⟨by decide, by decide⟩

/-- C9 amended: before a retry at index `attempt`, the BaseParser loop of
vk_parser.py and youtube_parser.py sleeps 2 ^ attempt seconds for timeouts
and for 429 alike, while RedditParser.make_api_request sleeps
3 * (attempt + 1) for timeouts and 5 * (attempt + 1) for 429; all three
paths default to 3 attempts. -/
theorem C9_amended_backoff_schedules :
    (∀ (α : Type) (script : Nat → VKEvent α) (attempt fuel : Nat),
        script attempt = VKEvent.timeout →
        (vk_request_loop script attempt (fuel + 2)).2.head? = some (2 ^ attempt)) ∧
    (∀ (α : Type) (script : Nat → VKEvent α) (attempt fuel : Nat),
        script attempt = VKEvent.status 429 →
        (vk_request_loop script attempt (fuel + 2)).2.head? = some (2 ^ attempt)) ∧
    (∀ (α : Type) (script : Nat → YTEvent α) (attempt fuel : Nat),
        script attempt = YTEvent.timeout →
        (yt_request_loop script attempt (fuel + 2)).2.head? = some (2 ^ attempt)) ∧
    (∀ (α : Type) (script : Nat → YTEvent α) (attempt fuel : Nat),
        script attempt = YTEvent.status 429 →
        (yt_request_loop script attempt (fuel + 2)).2.head? = some (2 ^ attempt)) ∧
    (∀ (α : Type) (script : Nat → RedditEvent α) (attempt fuel : Nat),
        script attempt = RedditEvent.timeout →
        (reddit_request_loop script attempt (fuel + 2)).2.head?
          = some ((attempt + 1) * 3)) ∧
    (∀ (α : Type) (script : Nat → RedditEvent α) (attempt fuel : Nat),
        script attempt = RedditEvent.rateLimited →
        (reddit_request_loop script attempt (fuel + 2)).2.head?
          = some ((attempt + 1) * 5)) ∧
    vk_default_max_retries = 3 ∧ yt_default_max_retries = 3 ∧
    reddit_default_max_retries = 3 := by
  refine ⟨?_, ?_, ?_, ?_, ?_, ?_, rfl, rfl, rfl⟩
  · intro α script attempt fuel h
    simp [vk_request_loop, h]
  · intro α script attempt fuel h
    simp [vk_request_loop, h, retryableStatus]
  · intro α script attempt fuel h
    simp [yt_request_loop, h]
  · intro α script attempt fuel h
    simp [yt_request_loop, h, retryableStatus]
  · intro α script attempt fuel h
    simp [reddit_request_loop, h]
  · intro α script attempt fuel h
    simp [reddit_request_loop, h]

/-- Witness for C9 amended at concrete scripts and attempt 0 with the
default 3 attempts. -/
theorem C9_witness :
    (vk_request_loop (fun _ => (VKEvent.timeout : VKEvent Nat)) 0 3).2.head?
      = some 1 ∧
    (reddit_request_loop (fun _ => (RedditEvent.rateLimited : RedditEvent Nat)) 0 3).2.head?
      = some 5 :=
  ⟨C9_amended_backoff_schedules.1 Nat (fun _ => VKEvent.timeout) 0 1 rfl,
   C9_amended_backoff_schedules.2.2.2.2.2.1 Nat (fun _ => RedditEvent.rateLimited) 0 1 rfl⟩
